import Mathlib

/-!
Shallow embedding of the repository's two source files,
`src/utils/git_helpers.py` and `src/services/repository_service.py`,
together with the Python string/`os.path` primitives they use
(POSIX semantics: `os.path.isabs`, `os.path.join`, `os.path.abspath`,
`str.strip`, `in`, `str.startswith`, `" ".join`).

The external world (filesystem queries, the spawned `git pull` process,
runtime faults) is an explicit parameter `World`; the embedded functions
return the value/raised-exception outcome together with a trace counting
how often `pull_updates` was entered and how often a process was spawned.
-/

set_option autoImplicit false
set_option maxRecDepth 100000

/-! ### Python string primitives -/

/-- Models `list.isPrefixOf`-style matching used for Python `str.startswith`:
`hasPrefixL pre l` is `true` iff `pre` is a prefix of `l`. -/
def hasPrefixL : List Char → List Char → Bool
  | [], _ => true
  | _ :: _, [] => false
  | a :: as, b :: bs => a == b && hasPrefixL as bs

/-- Models Python's substring test `sub in s` on the character list level:
`true` iff `sub` occurs contiguously in `l`. -/
def hasSubL (sub : List Char) : List Char → Bool
  | [] => hasPrefixL sub []
  | c :: cs => hasPrefixL sub (c :: cs) || hasSubL sub cs

/-- Python `sub in s` (substring containment). -/
def py_in (sub s : String) : Bool := hasSubL sub.data s.data

/-- Python `s.startswith(pre)`. -/
def py_startswith (s pre : String) : Bool := hasPrefixL pre.data s.data

/-- ASCII whitespace stripped by Python `str.strip()`
(space, tab, newline, carriage return, vertical tab, form feed). -/
def isPyWhitespace (c : Char) : Bool :=
  c == ' ' || c == '\t' || c == '\n' || c == '\r' || c == '\x0b' || c == '\x0c'

/-- Python `s.strip()` (ASCII whitespace; the sources only strip captured
process output, for which this is the relevant character class). -/
def pyStrip (s : String) : String :=
  ⟨((s.data.dropWhile isPyWhitespace).reverse.dropWhile isPyWhitespace).reverse⟩

/-- Python `" ".join(parts)`, as used in `GitPullFailedError.__str__`
and for rendering the command list. -/
def joinWithSpace : List String → String
  | [] => ""
  | [p] => p
  | p :: q :: rest => p ++ " " ++ joinWithSpace (q :: rest)

/-- First 100 characters, Python's `r[:100]` slice. -/
def take100 (s : String) : String := ⟨s.data.take 100⟩

/-- Hex digit for `\xHH` escapes in `repr`. -/
def hexDigit (n : Nat) : Char :=
  if n < 10 then Char.ofNat ('0'.toNat + n) else Char.ofNat ('a'.toNat + (n - 10))

/-- Python `repr` escape of one character for quote character `q`. -/
def pyReprChar (q c : Char) : String :=
  if c == '\\' then "\\\\"
  else if c == q then "\\" ++ ⟨[q]⟩
  else if c == '\n' then "\\n"
  else if c == '\r' then "\\r"
  else if c == '\t' then "\\t"
  else if c.toNat < 32 || c.toNat == 127 then
    "\\x" ++ ⟨[hexDigit (c.toNat / 16 % 16), hexDigit (c.toNat % 16)]⟩
  else ⟨[c]⟩

/-- Python `repr` of a string: single quotes unless the string contains a
single quote but no double quote; standard escapes. (Non-ASCII
non-printable characters are kept verbatim; the sources only `repr`
captured ASCII process output.) -/
def pyReprStr (s : String) : String :=
  let q : Char := if s.data.contains '\'' && !(s.data.contains '"') then '"' else '\''
  (⟨[q]⟩ : String) ++ String.join (s.data.map (pyReprChar q)) ++ ⟨[q]⟩

/-- Python `repr` applied to an optional string (`repr(None) = "None"`). -/
def pyReprOpt : Option String → String
  | none => "None"
  | some s => pyReprStr s

/-! ### POSIX path primitives (`posixpath.isabs/join/normpath/abspath`) -/

/-- `posixpath.isabs`: the path starts with `/`. -/
def posix_isabs (s : String) : Bool := hasPrefixL ['/'] s.data

/-- `posixpath.join(a, b)` on character lists. -/
def joinL (a b : List Char) : List Char :=
  if hasPrefixL ['/'] b then b
  else if a = [] ∨ a.getLast? = some '/' then a ++ b
  else a ++ '/' :: b

/-- `posixpath.join` with one component. -/
def posix_join (a b : String) : String := ⟨joinL a.data b.data⟩

/-- Number of leading slashes kept by `posixpath.normpath`
(1 normally, 2 for the POSIX-special `//` prefix). -/
def initialSlashesL (p : List Char) : Nat :=
  if hasPrefixL ['/', '/'] p = true ∧ hasPrefixL ['/', '/', '/'] p = false then 2
  else if hasPrefixL ['/'] p = true then 1 else 0

/-- Python `path.split('/')` on character lists. -/
def splitSlash : List Char → List (List Char)
  | [] => [[]]
  | c :: cs =>
    if c = '/' then [] :: splitSlash cs
    else
      match splitSlash cs with
      | [] => [[c]]
      | a :: as => (c :: a) :: as

/-- The component loop of `posixpath.normpath`: skip empty and `.`
components, push others, pop on `..` (except at the root or after a kept
`..`). The accumulator is kept reversed (Python appends/pops at the end). -/
def normComps (isl : Nat) : List (List Char) → List (List Char) → List (List Char)
  | acc, [] => acc
  | acc, comp :: rest =>
    if comp = [] ∨ comp = ['.'] then normComps isl acc rest
    else if comp ≠ ['.', '.'] ∨ (isl = 0 ∧ acc = []) ∨ acc.head? = some ['.', '.'] then
      normComps isl (comp :: acc) rest
    else
      normComps isl acc.tail rest

/-- Python `'/'.join(comps)` on character lists. -/
def intercalateSlash : List (List Char) → List Char
  | [] => []
  | [a] => a
  | a :: b :: rest => a ++ '/' :: intercalateSlash (b :: rest)

/-- `posixpath.normpath` on character lists. -/
def normpathL (p : List Char) : List Char :=
  if p = [] then ['.']
  else
    let isl := initialSlashesL p
    let res := List.replicate isl '/' ++
      intercalateSlash ((normComps isl [] (splitSlash p)).reverse)
    if res = [] then ['.'] else res

/-- `posixpath.normpath`. -/
def posix_normpath (p : String) : String := ⟨normpathL p.data⟩

/-- `posixpath.abspath` with an explicit current working directory:
join onto `cwd` if relative, then normalize. `abspath` is purely textual —
it never resolves symbolic links. -/
def posix_abspath (cwd p : String) : String :=
  ⟨normpathL (if hasPrefixL ['/'] p.data then p.data else joinL cwd.data p.data)⟩

/-! ### Data model of `src/utils/git_helpers.py` -/

/-- `GIT_OPERATION_TIMEOUT` from `git_helpers.py` (seconds). -/
def GIT_OPERATION_TIMEOUT : Nat := 60

/-- The command list `['git', 'pull']` built in `pull_updates`. -/
def git_command : List String := ["git", "pull"]

/-- The exception class `GitPullFailedError` (the spec's `OperationError`):
message, optional captured streams, optional exit code, and the command
string computed by `__init__`. -/
structure GitPullFailedError where
  message : String
  stderr : Option String := none
  stdout : Option String := none
  returncode : Option Int := none
  cmd_str : String := "Unknown command"
deriving DecidableEq

/-- `GitPullFailedError.__init__` for a command given as a list
(`" ".join(cmd)`) or absent (`"Unknown command"`); every raise in
`pull_updates` passes the list `git_command`. -/
def mkGitPullFailedError (message : String) (stderr stdout : Option String)
    (returncode : Option Int) (cmd : Option (List String)) : GitPullFailedError :=
  { message, stderr, stdout, returncode,
    cmd_str := match cmd with
      | some l => joinWithSpace l
      | none => "Unknown command" }

/-- Truthiness of `isinstance(x, str) and x.strip()` for an optional
captured stream. -/
def hasContent : Option String → Bool
  | some s => !(pyStrip s == "")
  | none => false

/-- `GitPullFailedError.__str__`: render the error for display. -/
def GitPullFailedError.render (e : GitPullFailedError) : String :=
  match e.returncode with
  | some rc =>
    let hse := hasContent e.stderr
    let hso := hasContent e.stdout
    let parts : List String :=
      ["Command '" ++ e.cmd_str ++ "' returned non-zero exit status " ++ toString rc ++ "."]
      ++ (if hse then ["Git Stderr: '" ++ pyStrip (e.stderr.getD "") ++ "'"] else [])
      ++ (if hso then ["Git Stdout: '" ++ pyStrip (e.stdout.getD "") ++ "'"] else [])
      ++ (if !hse && !hso then
            ["Git Stderr/Stdout: <No output or only whitespace produced by git command. Raw Stderr: "
              ++ take100 (pyReprOpt e.stderr) ++ ", Raw Stdout: " ++ take100 (pyReprOpt e.stdout) ++ ">"]
          else [])
    joinWithSpace parts
  | none =>
    let parts : List String :=
      [e.message]
      ++ (if e.cmd_str ≠ "Unknown command" ∧ py_in e.cmd_str e.message = false then
            ["(Command intended: '" ++ e.cmd_str ++ "')"] else [])
    let sec := match e.stderr with | some s => pyStrip s | none => ""
    let soc := match e.stdout with | some s => pyStrip s | none => ""
    let parts := parts
      ++ (if sec ≠ "" then ["Git Stderr (captured): '" ++ sec ++ "'"]
          else if soc ≠ "" then ["Git Stdout (captured): '" ++ soc ++ "'"] else [])
    joinWithSpace parts

/-- Outcome of the `subprocess.run(['git', 'pull'], ...)` call, as decided
by the external world: normal completion with exit code and captured
streams, `FileNotFoundError` (executable missing), `TimeoutExpired`
(with whatever the streams held, possibly `None`), or any other fault. -/
inductive ProcResult where
  | completed (returncode : Int) (stdout stderr : String)
  | fileNotFound
  | timedOut (stdout stderr : Option String)
  | otherError (detail : String)
deriving DecidableEq

/-- The Python exceptions that cross the functions of this repository:
`ValueError`, `GitPullFailedError`, `RepositoryServiceError`, and an
arbitrary other runtime exception (carrying its `str(e)` detail). -/
inductive PyError where
  | valueError (message : String)
  | gitPull (e : GitPullFailedError)
  | repositoryService (message : String)
  | otherException (detail : String)
deriving DecidableEq

deriving instance DecidableEq for Except

/-- Python `str(e)` for each modeled exception. -/
def PyError.str : PyError → String
  | .valueError m => m
  | .gitPull e => e.render
  | .repositoryService m => m
  | .otherException d => d

/-- The external environment of one call: current working directory
(`os.getcwd`, used by `os.path.abspath` on relative paths), directory
existence (`os.path.isdir`), the outcome of spawning `git pull` in a given
directory, an optional runtime fault raised inside the service's `try`
block other than `GitPullFailedError` (exercising its generic
`except Exception` handler), and the filesystem's symlink-following
resolution of a path. The source never consults `realResolve` —
`os.path.abspath` is purely textual — it exists only so that claims about
symlinked paths can be stated. -/
structure World where
  cwd : String
  isDir : String → Bool
  proc : String → ProcResult
  raiseOther : Option String := none
  realResolve : String → String

/-- `pull_updates(repo_dir)` from `git_helpers.py`. Returns the
value-or-exception outcome paired with the number of process spawns
(`subprocess.run` invocations) performed. Note the non-zero-exit case:
the structured `raise GitPullFailedError(...)` (source line 98) sits
inside the `try` suite, so the exception is caught by the same
statement's `except Exception as e` handler (line 126) and re-raised as
`GitPullFailedError(f"An unexpected error occurred during git pull: {str(e)}",
cmd=git_command)` — only the rendered text of the structured error
escapes, with no stderr/stdout/returncode fields. The raises inside the
`except FileNotFoundError` and `except TimeoutExpired` handlers escape
directly. -/
def pull_updates (w : World) (repo_dir : String) : Except PyError String × Nat :=
  if w.isDir repo_dir = false then
    (.error (.gitPull (mkGitPullFailedError
      ("Repository directory not found: " ++ repo_dir) none none none (some git_command))), 0)
  else
    match w.proc repo_dir with
    | .completed rc stdout stderr =>
      if rc ≠ 0 then
        -- The structured error raised at source line 98 is caught by the
        -- `except Exception` handler of its own `try` statement; what
        -- escapes is the catch-all re-wrap around its rendered text.
        (.error (.gitPull (mkGitPullFailedError
          ("An unexpected error occurred during git pull: "
            ++ (mkGitPullFailedError "Git pull operation failed."
                  (some stderr) (some stdout) (some rc) (some git_command)).render)
          none none none (some git_command))), 1)
      else
        (.ok stdout, 1)
    | .fileNotFound =>
      (.error (.gitPull (mkGitPullFailedError
        ("Git command '" ++ (git_command.getD 0 "") ++ "' not found. Ensure git is installed and in PATH.")
        none none none (some git_command))), 1)
    | .timedOut stdout stderr =>
      (.error (.gitPull (mkGitPullFailedError
        ("Git operation timed out after " ++ toString GIT_OPERATION_TIMEOUT ++ " seconds.")
        stderr stdout none (some git_command))), 1)
    | .otherError d =>
      (.error (.gitPull (mkGitPullFailedError
        ("An unexpected error occurred during git pull: " ++ d) none none none (some git_command))), 1)

/-! ### Data model of `src/services/repository_service.py` -/

/-- The service object: holds only the (construction-time normalized)
base repository path. -/
structure RepositoryService where
  base_repo_path : String
deriving DecidableEq

/-- `RepositoryService.__init__`: normalize the base path with
`os.path.abspath` and fail with `ValueError` unless it is a directory. -/
def RepositoryService.init (w : World) (base_repo_path : String) :
    Except PyError RepositoryService :=
  let base := posix_abspath w.cwd base_repo_path
  if w.isDir base = false then
    .error (.valueError ("Base repository path '" ++ base ++ "' is not a valid directory."))
  else
    .ok { base_repo_path := base }

/-- `RepositoryService._sanitize_repo_name`: reject names containing the
substring `..` or absolute names with `ValueError`, else return unchanged. -/
def sanitize_repo_name (repo_name : String) : Except PyError String :=
  if py_in ".." repo_name || posix_isabs repo_name then
    .error (.valueError "Invalid repository name: contains '..' or is an absolute path.")
  else
    .ok repo_name

/-- The success dictionary `{"status": ..., "output": ...}`. -/
structure UpdateResult where
  status : String
  output : String
deriving DecidableEq

/-- Trace of one `update_repository` call: how often `pull_updates` was
entered and how often a process was spawned. -/
structure CallTrace where
  pullCalls : Nat
  spawnCalls : Nat
deriving DecidableEq

/-- `RepositoryService.update_repository`: sanitize the name (wrapping a
`ValueError` into `RepositoryServiceError`), join onto the base path,
reject if the textual `os.path.abspath` of the candidate does not start
with the base path, then run `pull_updates` inside `try`, mapping success
to the result dictionary (placeholder text for empty output),
`GitPullFailedError` to a wrapped `RepositoryServiceError`, and any other
exception (modeled by `World.raiseOther`) to the "Unexpected error"
wrap. (`pull_updates` is pure here; the two projections below read the
outcome of the single modeled call.) -/
def update_repository (svc : RepositoryService) (w : World) (repo_name : String) :
    Except PyError UpdateResult × CallTrace :=
  match sanitize_repo_name repo_name with
  | .error (.valueError ve) =>
    (.error (.repositoryService ("Invalid repository name '" ++ repo_name ++ "': " ++ ve)), ⟨0, 0⟩)
  | .error e => (.error e, ⟨0, 0⟩)
  | .ok sane_repo_name =>
    let repo_path := posix_join svc.base_repo_path sane_repo_name
    if py_startswith (posix_abspath w.cwd repo_path) svc.base_repo_path = false then
      (.error (.repositoryService ("Invalid repository path for '" ++ repo_name ++ "'.")), ⟨0, 0⟩)
    else
      let tried : Except PyError String × CallTrace :=
        match w.raiseOther with
        | some d => (.error (.otherException d), ⟨0, 0⟩)
        | none => ((pull_updates w repo_path).1, ⟨1, (pull_updates w repo_path).2⟩)
      match tried with
      | (.ok output, t) =>
        (.ok { status := "success",
               output := if output = "" then "No new output from git pull." else output }, t)
      | (.error (.gitPull e), t) =>
        (.error (.repositoryService
          ("Error processing repository '" ++ repo_name ++ "': " ++ e.render)), t)
      | (.error e, t) =>
        (.error (.repositoryService
          ("Unexpected error processing repository '" ++ repo_name ++ "': " ++ e.str)), t)

/-! ### Helper lemmas on the string primitives -/

theorem hasPrefixL_append (x t : List Char) : hasPrefixL x (x ++ t) = true := by
  induction x with
  | nil => rfl
  | cons c cs ih => simp [hasPrefixL, ih]

theorem hasSubL_of_prefixMatch (x l : List Char) (h : hasPrefixL x l = true) :
    hasSubL x l = true := by
  cases l with
  | nil => simpa [hasSubL] using h
  | cons c cs => simp [hasSubL, h]

theorem hasSubL_cons (x : List Char) (c : Char) (cs : List Char)
    (h : hasSubL x cs = true) : hasSubL x (c :: cs) = true := by
  simp [hasSubL, h]

theorem hasSubL_append_left (x p l : List Char) (h : hasSubL x l = true) :
    hasSubL x (p ++ l) = true := by
  induction p with
  | nil => simpa using h
  | cons c cs ih => simpa [List.cons_append] using hasSubL_cons x c (cs ++ l) ih

theorem hasSubL_self_append (x t : List Char) : hasSubL x (x ++ t) = true :=
  hasSubL_of_prefixMatch _ _ (hasPrefixL_append x t)

theorem hasSubL_nil (l : List Char) : hasSubL [] l = true := by
  cases l <;> simp [hasSubL, hasPrefixL]

theorem py_in_mid (a x b : String) : py_in x (a ++ (x ++ b)) = true := by
  simp only [py_in, String.data_append]
  exact hasSubL_append_left _ _ _ (hasSubL_self_append _ _)

theorem py_in_empty_sub (s : String) : py_in "" s = true := by
  simp only [py_in]
  exact hasSubL_nil _

theorem py_startswith_append (pre rest : String) : py_startswith (pre ++ rest) pre = true := by
  simp only [py_startswith, String.data_append]
  exact hasPrefixL_append _ _

theorem py_startswith_self (s : String) : py_startswith s s = true := by
  simpa using py_startswith_append s ""

theorem gitCmdStr : joinWithSpace git_command = "git pull" := by decide

theorem gitCmdStrLit : joinWithSpace ["git", "pull"] = "git pull" := by decide

/-! ### Shared facts about the embedded service -/

/-- A name failing `_sanitize_repo_name` makes `update_repository` return
the wrapped naming `RepositoryServiceError` with no pull call and no
process spawn. -/
theorem update_invalid_name (svc : RepositoryService) (w : World) (n : String)
    (h : (py_in ".." n || posix_isabs n) = true) :
    update_repository svc w n =
      (.error (.repositoryService ("Invalid repository name '" ++ n ++ "': "
        ++ "Invalid repository name: contains '..' or is an absolute path.")), ⟨0, 0⟩) := by
  simp [update_repository, sanitize_repo_name, h]

/-! ### Concrete worlds used by witnesses -/

/-- A service whose base path is already in canonical absolute form, as
`__init__` guarantees. -/
def svcFix : RepositoryService := { base_repo_path := "/data/repos" }

/-- A world where every directory exists and `git pull` succeeds. -/
def wFix : World :=
  { cwd := "/home/user", isDir := fun _ => true,
    proc := fun _ => .completed 0 "Already up to date.\n" "",
    raiseOther := none, realResolve := fun p => p }

/-- A world with no directories at all. -/
def wNoDir : World :=
  { cwd := "/", isDir := fun _ => false, proc := fun _ => .fileNotFound,
    raiseOther := none, realResolve := fun p => p }

/-- A world whose `git pull` exceeds the wait bound, with partial stdout. -/
def wTimeout : World :=
  { cwd := "/", isDir := fun _ => true, proc := fun _ => .timedOut (some "partial out") none,
    raiseOther := none, realResolve := fun p => p }

/-! ### Claims -/

/-- C1: every `repoName` containing the substring `..` or absolute fails
with the naming error wrapped in `RepositoryServiceError`, with zero
`pull_updates` calls and zero process spawns. -/
theorem C1_naming_rejected_before_pull (svc : RepositoryService) (w : World) (n : String)
    (h : py_in ".." n = true ∨ posix_isabs n = true) :
    update_repository svc w n =
      (.error (.repositoryService ("Invalid repository name '" ++ n ++ "': "
        ++ "Invalid repository name: contains '..' or is an absolute path.")), ⟨0, 0⟩) :=
  update_invalid_name svc w n (by rcases h with h | h <;> simp [h])

/-- Witness for C1 at the concrete traversal name `"../outside"`. -/
theorem C1_witness_dotdot :
    update_repository svcFix wFix "../outside" =
      (.error (.repositoryService ("Invalid repository name '" ++ "../outside" ++ "': "
        ++ "Invalid repository name: contains '..' or is an absolute path.")), ⟨0, 0⟩) :=
  C1_naming_rejected_before_pull svcFix wFix "../outside" (Or.inl (by decide))

/-- C10: the parent-directory rejection is a plain substring test — every
name of the form `a ++ ".." ++ b` (the substring `..` anywhere, parent
segment or not, e.g. `"release" ++ ".." ++ "v2"`) is rejected with the
naming error by `update_repository`. -/
theorem C10_substring_dotdot_rejected (svc : RepositoryService) (w : World) (a b : String) :
    update_repository svc w (a ++ ".." ++ b) =
      (.error (.repositoryService ("Invalid repository name '" ++ (a ++ ".." ++ b) ++ "': "
        ++ "Invalid repository name: contains '..' or is an absolute path.")), ⟨0, 0⟩) := by
  apply update_invalid_name
  have h : py_in ".." (a ++ ".." ++ b) = true := by
    simp only [py_in, String.data_append]
    rw [List.append_assoc]
    exact hasSubL_append_left _ _ _ (hasSubL_self_append _ _)
  simp [h]

/-- C6: if the target directory does not exist, `pull_updates` fails at
once with the directory-not-found `GitPullFailedError` carrying the
command but no exit code and no streams, and spawns no process. -/
theorem C6_missing_directory_no_spawn (w : World) (dir : String)
    (h : w.isDir dir = false) :
    pull_updates w dir =
      (.error (.gitPull { message := "Repository directory not found: " ++ dir,
                          stderr := none, stdout := none, returncode := none,
                          cmd_str := "git pull" }), 0) := by
  simp [pull_updates, h, mkGitPullFailedError, git_command, gitCmdStr, gitCmdStrLit]

/-- Witness for C6 at a concrete missing directory. -/
theorem C6_witness_missing_directory :
    pull_updates wNoDir "/data/repos/missing" =
      (.error (.gitPull { message := "Repository directory not found: " ++ "/data/repos/missing",
                          stderr := none, stdout := none, returncode := none,
                          cmd_str := "git pull" }), 0) :=
  C6_missing_directory_no_spawn wNoDir "/data/repos/missing" rfl

/-- C7: on a timeout of the external process, `pull_updates` fails with
the 60-second timeout message, carries the command and whatever streams
were captured, and no exit code. -/
theorem C7_timeout_error_fields (w : World) (dir : String) (sto ste : Option String)
    (hd : w.isDir dir = true) (hp : w.proc dir = .timedOut sto ste) :
    pull_updates w dir =
      (.error (.gitPull { message := "Git operation timed out after 60 seconds.",
                          stderr := ste, stdout := sto, returncode := none,
                          cmd_str := "git pull" }), 1) := by
  have hmsg : "Git operation timed out after " ++ toString GIT_OPERATION_TIMEOUT ++ " seconds."
      = "Git operation timed out after 60 seconds." := by decide
  simp [pull_updates, hd, hp, mkGitPullFailedError, git_command, gitCmdStr, gitCmdStrLit, hmsg]

/-- Witness for C7 at a concrete timed-out pull. -/
theorem C7_witness_timeout :
    pull_updates wTimeout "/data/repos/r1" =
      (.error (.gitPull { message := "Git operation timed out after 60 seconds.",
                          stderr := none, stdout := some "partial out", returncode := none,
                          cmd_str := "git pull" }), 1) :=
  C7_timeout_error_fields wTimeout "/data/repos/r1" (some "partial out") none rfl rfl

/-- A world where `git pull` succeeds with empty standard output. -/
def wEmptyOut : World :=
  { cwd := "/home/user", isDir := fun _ => true, proc := fun _ => .completed 0 "" "",
    raiseOther := none, realResolve := fun p => p }

/-- A world where `git pull` exits 1 with standard error `"conflict"`. -/
def wConflict : World :=
  { cwd := "/", isDir := fun _ => true, proc := fun _ => .completed 1 "" "conflict",
    raiseOther := none, realResolve := fun p => p }

/-- C3: on a successful pull (exit 0), `update_repository` returns status
`"success"` with the captured stdout verbatim when non-empty and the fixed
placeholder (never the empty string) when empty. -/
theorem C3_success_output_placeholder (svc : RepositoryService) (w : World)
    (n out err : String)
    (h1 : (py_in ".." n || posix_isabs n) = false)
    (h2 : py_startswith (posix_abspath w.cwd (posix_join svc.base_repo_path n))
            svc.base_repo_path = true)
    (hro : w.raiseOther = none)
    (hd : w.isDir (posix_join svc.base_repo_path n) = true)
    (hp : w.proc (posix_join svc.base_repo_path n) = .completed 0 out err) :
    ∃ r : UpdateResult,
      update_repository svc w n = (.ok r, ⟨1, 1⟩)
      ∧ r.status = "success"
      ∧ (out ≠ "" → r.output = out)
      ∧ (out = "" → r.output = "No new output from git pull.")
      ∧ r.output ≠ "" := by
  refine ⟨⟨"success", if out = "" then "No new output from git pull." else out⟩, ?_, rfl, ?_, ?_, ?_⟩
  · simp [update_repository, sanitize_repo_name, h1, h2, hro, pull_updates, hd, hp]
  · intro hne
    simp [hne]
  · intro he
    simp [he]
  · by_cases he : out = ""
    · simp only [he, if_pos rfl]
      decide
    · simp [he]

/-- Witness for C3: exit 0 with empty stdout yields the placeholder. -/
theorem C3_witness_empty_output :
    ∃ r : UpdateResult,
      update_repository svcFix wEmptyOut "repo1" = (.ok r, ⟨1, 1⟩)
      ∧ r.status = "success"
      ∧ (("" : String) ≠ "" → r.output = "")
      ∧ (("" : String) = "" → r.output = "No new output from git pull.")
      ∧ r.output ≠ "" :=
  C3_success_output_placeholder svcFix wEmptyOut "repo1" "" ""
    (by decide) (by decide) rfl rfl rfl

/-- The `GitPullFailedError` constructed (and immediately self-caught) by
the non-zero-exit case of `pull_updates`. -/
def pullFailureInner (rc : Int) (out err : String) : GitPullFailedError :=
  { message := "Git pull operation failed.", stderr := some err, stdout := some out,
    returncode := some rc, cmd_str := "git pull" }

/-- C4 under the code as written: at exit 1 with stderr `"conflict"` and
empty stdout, the structured error raised at `git_helpers.py` line 98 is
swallowed by its own `except Exception` handler (line 126); what escapes
`pull_updates` is a `GitPullFailedError` with NO stderr, NO stdout and NO
exit code whose message is the catch-all wrap around the rendered inner
error, and the service message is the corresponding double wrap — not the
single wrap of the structured error that the claim (and the spec's
intent) describe. The repository name and the stderr text do still occur
inside the nested message text. -/
theorem C4_nonzero_exit_double_wrapped :
    pull_updates wConflict (posix_join svcFix.base_repo_path "repo1")
      = (.error (.gitPull { message := "An unexpected error occurred during git pull: "
                              ++ (pullFailureInner 1 "" "conflict").render,
                            stderr := none, stdout := none, returncode := none,
                            cmd_str := "git pull" }), 1)
    ∧ (pullFailureInner 1 "" "conflict").render
        = "Command 'git pull' returned non-zero exit status 1. Git Stderr: 'conflict'"
    ∧ update_repository svcFix wConflict "repo1"
      = (.error (.repositoryService ("Error processing repository '" ++ "repo1" ++ "': "
          ++ ("An unexpected error occurred during git pull: "
              ++ (pullFailureInner 1 "" "conflict").render))), ⟨1, 1⟩)
    ∧ py_in "repo1" ("Error processing repository '" ++ "repo1" ++ "': "
          ++ ("An unexpected error occurred during git pull: "
              ++ (pullFailureInner 1 "" "conflict").render)) = true
    ∧ py_in "conflict" ("Error processing repository '" ++ "repo1" ++ "': "
          ++ ("An unexpected error occurred during git pull: "
              ++ (pullFailureInner 1 "" "conflict").render)) = true := by
  decide

/-- A `GitPullFailedError` with exit code 1 and both streams non-empty. -/
def eC5 : GitPullFailedError :=
  { message := "Git pull operation failed.", stderr := some "e", stdout := some "o",
    returncode := some 1, cmd_str := "git pull" }

/-- Rendering of an exit-code error as the spec sentence describes it:
the header followed by the quoted standard-error text if non-empty, ELSE
the quoted standard-output text if non-empty (quoting format taken from
the code). This follows the spec's words, for comparison against
`GitPullFailedError.render`, which follows the code. -/
def specExitCodeRender (cmdStr : String) (code : Int) (stderr stdout : Option String) : String :=
  "Command '" ++ cmdStr ++ "' returned non-zero exit status " ++ toString code ++ "."
  ++ (if hasContent stderr then " " ++ ("Git Stderr: '" ++ pyStrip (stderr.getD "") ++ "'")
      else if hasContent stdout then " " ++ ("Git Stdout: '" ++ pyStrip (stdout.getD "") ++ "'")
      else "")

/-- Counterexample to C5: with exit code 1, stderr `"e"` and stdout `"o"`
both non-empty, the code renders BOTH streams — the rendered message ends
with the stdout part — while the claim's else-selection would render only
the stderr part. -/
theorem C5_counterexample_both_streams :
    GitPullFailedError.render eC5
      = "Command 'git pull' returned non-zero exit status 1. Git Stderr: 'e' Git Stdout: 'o'"
    ∧ GitPullFailedError.render eC5 ≠ specExitCodeRender "git pull" 1 (some "e") (some "o") := by
  decide

/-- C5 (amended): with an exit code present, the rendered message is the
header followed by the quoted stderr text if non-empty, THEN additionally
the quoted stdout text if non-empty (both appear when both are non-empty),
and, when neither has content, a diagnostic note quoting the raw `repr` of
both streams. -/
theorem C5_amended_render_exit_status (e : GitPullFailedError) (rc : Int)
    (h : e.returncode = some rc) :
    GitPullFailedError.render e =
      "Command '" ++ e.cmd_str ++ "' returned non-zero exit status " ++ toString rc ++ "."
      ++ (if hasContent e.stderr then
            " " ++ ("Git Stderr: '" ++ pyStrip (e.stderr.getD "") ++ "'") else "")
      ++ (if hasContent e.stdout then
            " " ++ ("Git Stdout: '" ++ pyStrip (e.stdout.getD "") ++ "'") else "")
      ++ (if hasContent e.stderr = false ∧ hasContent e.stdout = false then
            " " ++ ("Git Stderr/Stdout: <No output or only whitespace produced by git command. Raw Stderr: "
              ++ take100 (pyReprOpt e.stderr) ++ ", Raw Stdout: " ++ take100 (pyReprOpt e.stdout) ++ ">")
          else "") := by
  refine String.ext ?_
  cases hse : hasContent e.stderr <;> cases hso : hasContent e.stdout <;>
    simp [GitPullFailedError.render, h, hse, hso, joinWithSpace, String.data_append,
      List.append_assoc]

/-- Witness for the amended C5 at the concrete error `eC5`. -/
theorem C5_witness_render :
    GitPullFailedError.render eC5 =
      "Command '" ++ eC5.cmd_str ++ "' returned non-zero exit status " ++ toString (1 : Int) ++ "."
      ++ (if hasContent eC5.stderr then
            " " ++ ("Git Stderr: '" ++ pyStrip (eC5.stderr.getD "") ++ "'") else "")
      ++ (if hasContent eC5.stdout then
            " " ++ ("Git Stdout: '" ++ pyStrip (eC5.stdout.getD "") ++ "'") else "")
      ++ (if hasContent eC5.stderr = false ∧ hasContent eC5.stdout = false then
            " " ++ ("Git Stderr/Stdout: <No output or only whitespace produced by git command. Raw Stderr: "
              ++ take100 (pyReprOpt eC5.stderr) ++ ", Raw Stdout: " ++ take100 (pyReprOpt eC5.stdout) ++ ">")
          else "") :=
  C5_amended_render_exit_status eC5 1 rfl

/-- A world containing a symlink `/data/repos/link` pointing at `/etc`:
the real (symlink-following) resolution leaves the base directory, the
textual path does not. -/
def wSymlink : World :=
  { cwd := "/", isDir := fun _ => true, proc := fun _ => .completed 0 "ok" "",
    raiseOther := none,
    realResolve := fun p => if p = "/data/repos/link" then "/etc" else p }

/-- Counterexample to C2: the name `"link"` passes validation, its
symlink-followed resolution `/etc` lies outside the base directory, yet
`update_repository` does not reject — it invokes the pull once and
succeeds, because `os.path.abspath` never resolves symlinks. -/
theorem C2_counterexample_symlink_accepted :
    (py_in ".." "link" = false ∧ posix_isabs "link" = false)
    ∧ py_startswith (wSymlink.realResolve (posix_join svcFix.base_repo_path "link"))
        svcFix.base_repo_path = false
    ∧ update_repository svcFix wSymlink "link" = (.ok ⟨"success", "ok"⟩, ⟨1, 1⟩) := by
  decide

/-- C2 (amended): for every name passing validation whose TEXTUAL
`os.path.abspath` resolution of the joined candidate does not begin with
the base directory's textual representation, `update_repository` rejects
with the path-escape `RepositoryServiceError` and performs zero pull calls
and zero process spawns. -/
theorem C2_amended_prefix_failure_rejected (svc : RepositoryService) (w : World) (n : String)
    (h1 : (py_in ".." n || posix_isabs n) = false)
    (h2 : py_startswith (posix_abspath w.cwd (posix_join svc.base_repo_path n))
            svc.base_repo_path = false) :
    update_repository svc w n
      = (.error (.repositoryService ("Invalid repository path for '" ++ n ++ "'.")), ⟨0, 0⟩) := by
  simp [update_repository, sanitize_repo_name, h1, h2]

/-- A service state whose base path is not in canonical form, making the
defense-in-depth prefix check observable. -/
def svcOdd : RepositoryService := { base_repo_path := "/a/./b" }

/-- Witness for the amended C2: base `/a/./b`, name `x` — the candidate
normalizes to `/a/b/x`, which does not start with `/a/./b`. -/
theorem C2_witness_prefix_failure :
    update_repository svcOdd wFix "x"
      = (.error (.repositoryService ("Invalid repository path for '" ++ "x" ++ "'.")), ⟨0, 0⟩) :=
  C2_amended_prefix_failure_rejected svcOdd wFix "x" (by decide) (by decide)

/-- `pull_updates` raises only `GitPullFailedError`. -/
theorem pull_updates_errors_gitPull (w : World) (p : String) (e : PyError)
    (h : (pull_updates w p).1 = .error e) : ∃ g, e = .gitPull g := by
  unfold pull_updates at h
  split at h
  · exact ⟨_, (Except.error.inj h).symm⟩
  · split at h
    · split at h
      · exact ⟨_, (Except.error.inj h).symm⟩
      · exact Except.noConfusion h
    · exact ⟨_, (Except.error.inj h).symm⟩
    · exact ⟨_, (Except.error.inj h).symm⟩
    · exact ⟨_, (Except.error.inj h).symm⟩

/-- C8: every failure of `update_repository` is exactly one
`RepositoryServiceError`: (1) any raised error is the
`repositoryService` kind; (2) a naming-validation failure is wrapped
rather than escaping as a raw `ValueError`; (3) an underlying
`GitPullFailedError` is always wrapped with the repository name and its
rendered detail; (4) any other fault in the `try` block is wrapped tagged
as unexpected with the repository name and the fault detail. -/
theorem C8_single_service_error (svc : RepositoryService) (w : World) (n : String) :
    (∀ e, (update_repository svc w n).1 = .error e → ∃ m, e = .repositoryService m)
    ∧ ((py_in ".." n || posix_isabs n) = true →
        (update_repository svc w n).1 = .error (.repositoryService
          ("Invalid repository name '" ++ n ++ "': "
            ++ "Invalid repository name: contains '..' or is an absolute path.")))
    ∧ (∀ g : GitPullFailedError, (py_in ".." n || posix_isabs n) = false →
        py_startswith (posix_abspath w.cwd (posix_join svc.base_repo_path n))
          svc.base_repo_path = true →
        w.raiseOther = none →
        (pull_updates w (posix_join svc.base_repo_path n)).1 = .error (.gitPull g) →
        (update_repository svc w n).1 = .error (.repositoryService
          ("Error processing repository '" ++ n ++ "': " ++ g.render)))
    ∧ (∀ d : String, (py_in ".." n || posix_isabs n) = false →
        py_startswith (posix_abspath w.cwd (posix_join svc.base_repo_path n))
          svc.base_repo_path = true →
        w.raiseOther = some d →
        (update_repository svc w n).1 = .error (.repositoryService
          ("Unexpected error processing repository '" ++ n ++ "': " ++ d))) := by
  refine ⟨?_, ?_, ?_, ?_⟩
  · intro e h
    by_cases hb : (py_in ".." n || posix_isabs n) = true
    · simp [update_repository, sanitize_repo_name, hb] at h
      exact ⟨_, h.symm⟩
    · have hb' : (py_in ".." n || posix_isabs n) = false := by
        cases hx : (py_in ".." n || posix_isabs n)
        · rfl
        · exact absurd hx hb
      by_cases hc : py_startswith (posix_abspath w.cwd (posix_join svc.base_repo_path n))
          svc.base_repo_path = false
      · simp [update_repository, sanitize_repo_name, hb', hc] at h
        exact ⟨_, h.symm⟩
      · have hc' : py_startswith (posix_abspath w.cwd (posix_join svc.base_repo_path n))
            svc.base_repo_path = true := by
          cases hx : py_startswith (posix_abspath w.cwd (posix_join svc.base_repo_path n))
              svc.base_repo_path
          · exact absurd hx hc
          · rfl
        cases hro : w.raiseOther with
        | some d =>
          simp [update_repository, sanitize_repo_name, hb', hc', hro, PyError.str] at h
          exact ⟨_, h.symm⟩
        | none =>
          cases hq : (pull_updates w (posix_join svc.base_repo_path n)).1 with
          | ok out =>
            simp [update_repository, sanitize_repo_name, hb', hc', hro, hq] at h
          | error pe =>
            obtain ⟨g, rfl⟩ := pull_updates_errors_gitPull _ _ _ hq
            simp [update_repository, sanitize_repo_name, hb', hc', hro, hq] at h
            exact ⟨_, h.symm⟩
  · intro hb
    rw [update_invalid_name svc w n hb]
  · intro g hb hc hro hq
    simp [update_repository, sanitize_repo_name, hb, hc, hro, hq]
  · intro d hb hc hro
    simp [update_repository, sanitize_repo_name, hb, hc, hro, PyError.str]

/-- The directory-not-found error produced at `/data/repos/repo1`. -/
def gNoDir : GitPullFailedError :=
  { message := "Repository directory not found: /data/repos/repo1",
    stderr := none, stdout := none, returncode := none, cmd_str := "git pull" }

/-- Witness for C8: a concrete `GitPullFailedError` is wrapped into the
`RepositoryServiceError` with the repository name and rendered detail. -/
theorem C8_witness_wrapped_operation_error :
    (update_repository svcFix wNoDir "repo1").1 = .error (.repositoryService
      ("Error processing repository '" ++ "repo1" ++ "': " ++ gNoDir.render)) :=
  (C8_single_service_error svcFix wNoDir "repo1").2.2.1 gNoDir
    (by decide) (by decide) rfl (by decide)

/-! ### Path lemmas for the empty-name claim -/

theorem splitSlash_ne_nil (l : List Char) : splitSlash l ≠ [] := by
  cases l with
  | nil => simp [splitSlash]
  | cons c cs =>
    simp only [splitSlash]
    split
    · simp
    · split
      · simp
      · simp

theorem splitSlash_exists_cons (l : List Char) : ∃ a as, splitSlash l = a :: as := by
  cases hs : splitSlash l with
  | nil => exact absurd hs (splitSlash_ne_nil l)
  | cons a as => exact ⟨a, as, rfl⟩

theorem splitSlash_append_slash (b : List Char) :
    splitSlash (b ++ ['/']) = splitSlash b ++ [[]] := by
  induction b with
  | nil => rfl
  | cons c cs ih =>
    by_cases hc : c = '/'
    · subst hc
      simp [List.cons_append, splitSlash, ih]
    · obtain ⟨a, as, hs⟩ := splitSlash_exists_cons cs
      simp [List.cons_append, splitSlash, hc, ih, hs]

theorem normComps_append_nil (isl : Nat) (xs : List (List Char)) :
    ∀ acc, normComps isl acc (xs ++ [[]]) = normComps isl acc xs := by
  induction xs with
  | nil =>
    intro acc
    simp [normComps]
  | cons comp rest ih =>
    intro acc
    simp only [List.cons_append, normComps]
    split
    · exact ih acc
    · split
      · exact ih _
      · exact ih _

/-- For a path `b` already in canonical absolute form,
`abspath(join(b, ""))` is `b` itself (with any working directory):
either `b` ends in a slash and the join is a no-op, or the join appends a
slash that renormalizes away. -/
theorem abspath_join_empty (cwd b : String)
    (hnorm : posix_normpath b = b) (habs : posix_isabs b = true) :
    posix_abspath cwd (posix_join b "") = b := by
  have hd : normpathL b.data = b.data := congrArg String.data hnorm
  have hab : hasPrefixL ['/'] b.data = true := habs
  obtain ⟨d₂, hb2⟩ : ∃ d₂, b.data = '/' :: d₂ := by
    cases hbd : b.data with
    | nil => rw [hbd] at hab; exact absurd hab (by simp [hasPrefixL])
    | cons c cs =>
      rw [hbd] at hab
      simp [hasPrefixL] at hab
      exact ⟨cs, by rw [← hab]⟩
  have hne : b.data ≠ [] := by rw [hb2]; simp
  have hjoin : (posix_join b "").data = joinL b.data [] := by
    have he : ("" : String).data = [] := rfl
    simp [posix_join, he]
  by_cases hlast : b.data.getLast? = some '/'
  · have hj : joinL b.data [] = b.data := by
      simp [joinL, hasPrefixL, hlast]
    apply String.ext
    show normpathL (if hasPrefixL ['/'] (posix_join b "").data then (posix_join b "").data
      else joinL cwd.data (posix_join b "").data) = b.data
    rw [hjoin, hj]
    simp [hab, hd]
  · have hj : joinL b.data [] = b.data ++ ['/'] := by
      simp [joinL, hasPrefixL, hlast, hne]
    obtain ⟨c, d₃, hb3⟩ : ∃ c d₃, d₂ = c :: d₃ := by
      cases d₂ with
      | nil => exact absurd (by rw [hb2]; rfl) hlast
      | cons c d₃ => exact ⟨c, d₃, rfl⟩
    have hisl : initialSlashesL (b.data ++ ['/']) = initialSlashesL b.data := by
      rw [hb2, hb3]
      by_cases hc : c = '/'
      · subst hc
        obtain ⟨e, d₄, hd4⟩ : ∃ e d₄, d₃ = e :: d₄ := by
          cases d₃ with
          | nil => exact absurd (by rw [hb2, hb3]; rfl) hlast
          | cons e d₄ => exact ⟨e, d₄, rfl⟩
        rw [hd4]
        simp [initialSlashesL, hasPrefixL, List.cons_append]
      · have h2 : ('/' == c) = false := by
          simp only [beq_eq_false_iff_ne, ne_eq]
          exact fun h => hc h.symm
        simp [initialSlashesL, hasPrefixL, List.cons_append, h2]
    have hmain : normpathL (b.data ++ ['/']) = b.data := by
      have hne2 : b.data ++ ['/'] ≠ [] := by simp
      unfold normpathL at hd ⊢
      rw [if_neg hne2]
      rw [if_neg hne] at hd
      simp only [hisl, splitSlash_append_slash, normComps_append_nil] at hd ⊢
      by_cases hres : List.replicate (initialSlashesL b.data) '/' ++
          intercalateSlash (normComps (initialSlashesL b.data) [] (splitSlash b.data)).reverse = []
      · rw [if_pos hres] at hd
        rw [hb2] at hd
        exact absurd hd (by simp)
      · rw [if_neg hres] at hd
        rw [if_neg hres]
        exact hd
    have habs2 : hasPrefixL ['/'] (b.data ++ ['/']) = true := by
      rw [hb2]
      simp [hasPrefixL, List.cons_append]
    apply String.ext
    show normpathL (if hasPrefixL ['/'] (posix_join b "").data then (posix_join b "").data
      else joinL cwd.data (posix_join b "").data) = b.data
    rw [hjoin, hj]
    simp [habs2, hmain]

/-- An operation-wrap message never equals a naming-error message
(they start with different characters). -/
theorem errmsg_ne_invalid_name (x y z r : String) :
    "Error processing repository '" ++ x ++ "': " ++ r
      ≠ "Invalid repository name '" ++ y ++ "': " ++ z := by
  intro h
  have hh := congrArg (fun s => s.data.head?) h
  simp [String.data_append] at hh

/-- An operation-wrap message never equals a path-escape message. -/
theorem errmsg_ne_invalid_path (x y r : String) :
    "Error processing repository '" ++ x ++ "': " ++ r
      ≠ "Invalid repository path for '" ++ y ++ "'." := by
  intro h
  have hh := congrArg (fun s => s.data.head?) h
  simp [String.data_append] at hh

/-- C9: the empty repository name passes validation, the candidate path
resolves (textually) to the base directory itself, the prefix check
accepts it, and the pull operation is invoked once — the call raises
neither the naming error nor the path-escape error. -/
theorem C9_empty_name_pulls_base (svc : RepositoryService) (w : World)
    (hnorm : posix_normpath svc.base_repo_path = svc.base_repo_path)
    (habs : posix_isabs svc.base_repo_path = true)
    (hro : w.raiseOther = none) :
    sanitize_repo_name "" = .ok ""
    ∧ posix_abspath w.cwd (posix_join svc.base_repo_path "") = svc.base_repo_path
    ∧ py_startswith (posix_abspath w.cwd (posix_join svc.base_repo_path ""))
        svc.base_repo_path = true
    ∧ (update_repository svc w "").2
        = ⟨1, (pull_updates w (posix_join svc.base_repo_path "")).2⟩
    ∧ (update_repository svc w "").1
        ≠ .error (.repositoryService ("Invalid repository name '" ++ "" ++ "': "
            ++ "Invalid repository name: contains '..' or is an absolute path."))
    ∧ (update_repository svc w "").1
        ≠ .error (.repositoryService ("Invalid repository path for '" ++ "" ++ "'.")) := by
  have habseq := abspath_join_empty w.cwd svc.base_repo_path hnorm habs
  have hsw : py_startswith (posix_abspath w.cwd (posix_join svc.base_repo_path ""))
      svc.base_repo_path = true := by
    rw [habseq]
    exact py_startswith_self _
  have hs0 : sanitize_repo_name "" = .ok "" := by decide
  have key : (∃ r, update_repository svc w ""
        = (.ok r, ⟨1, (pull_updates w (posix_join svc.base_repo_path "")).2⟩))
      ∨ (∃ g, update_repository svc w ""
        = (.error (.repositoryService ("Error processing repository '" ++ "" ++ "': "
            ++ GitPullFailedError.render g)),
           ⟨1, (pull_updates w (posix_join svc.base_repo_path "")).2⟩)) := by
    cases hq : (pull_updates w (posix_join svc.base_repo_path "")).1 with
    | ok out =>
      left
      refine ⟨⟨"success", if out = "" then "No new output from git pull." else out⟩, ?_⟩
      simp [update_repository, hs0, hsw, hro, hq]
    | error pe =>
      obtain ⟨g, rfl⟩ := pull_updates_errors_gitPull _ _ _ hq
      right
      refine ⟨g, ?_⟩
      simp [update_repository, hs0, hsw, hro, hq]
  obtain (⟨r, he⟩ | ⟨g, he⟩) := key
  · refine ⟨hs0, habseq, hsw, ?_, ?_, ?_⟩
    · rw [he]
    · rw [he]
      simp
    · rw [he]
      simp
  · refine ⟨hs0, habseq, hsw, ?_, ?_, ?_⟩
    · rw [he]
    · rw [he]
      intro hcon
      exact errmsg_ne_invalid_name "" "" _ _
        (PyError.repositoryService.inj (Except.error.inj hcon))
    · rw [he]
      intro hcon
      exact errmsg_ne_invalid_path "" _ _
        (PyError.repositoryService.inj (Except.error.inj hcon))

/-- Witness for C9 at the canonical base `/data/repos`. -/
theorem C9_witness_empty_name :
    sanitize_repo_name "" = .ok ""
    ∧ posix_abspath wFix.cwd (posix_join svcFix.base_repo_path "") = svcFix.base_repo_path
    ∧ py_startswith (posix_abspath wFix.cwd (posix_join svcFix.base_repo_path ""))
        svcFix.base_repo_path = true
    ∧ (update_repository svcFix wFix "").2
        = ⟨1, (pull_updates wFix (posix_join svcFix.base_repo_path "")).2⟩
    ∧ (update_repository svcFix wFix "").1
        ≠ .error (.repositoryService ("Invalid repository name '" ++ "" ++ "': "
            ++ "Invalid repository name: contains '..' or is an absolute path."))
    ∧ (update_repository svcFix wFix "").1
        ≠ .error (.repositoryService ("Invalid repository path for '" ++ "" ++ "'.")) :=
  C9_empty_name_pulls_base svcFix wFix (by decide) (by decide) rfl
